import Mathlib

/-!
Verification of the timestamper media pipeline (reporter.py, timestamper.py,
meta_reader.py, get_addr.py, doc_creator.py, config.py) against its
specification.  Python functions are shallowly embedded as Lean functions;
Python exceptions are modelled with `Except`, absent values with `Option`,
float arithmetic on EXIF rationals with `ℚ`, and external calls (the
geocoding service, file metadata, the filesystem) as explicit inputs.
-/

/-! ### String helpers shared by several modules

Python's `str.lower()` on the ASCII filenames handled here, `str.endswith`,
and single-character `str.split` / `str.replace` are modelled over the
underlying character lists.
-/

/-- Models Python `str.lower()` (ASCII range, which covers the file
extensions compared in the sources). -/
def lowerChar (c : Char) : Char :=
  if 'A' ≤ c ∧ c ≤ 'Z' then Char.ofNat (c.toNat + 32) else c

/-- Models Python `str.lower()` on a whole string. -/
def pyLower (s : String) : String := ⟨s.data.map lowerChar⟩

/-- Models Python `str.endswith(suffix)`. -/
def strEndsWith (s suffixArg : String) : Bool := decide (suffixArg.data <:+ s.data)

/-- Models Python `str.split(sep)` for a one-character separator: consecutive
separators produce empty pieces, exactly as in Python. -/
def splitChar (sep : Char) : List Char → List (List Char)
  | [] => [[]]
  | c :: rest =>
    match splitChar sep rest with
    | [] => [[]]
    | h :: t => if c = sep then [] :: h :: t else (c :: h) :: t

/-- Decimal digit characters of `n`, least significant first, by repeated
division; `fuel ≥ n` makes the recursion structural. Models Python `str(i)`
digit by digit. -/
def natDigitsAux : Nat → Nat → List Char
  | 0, _ => []
  | _, 0 => []
  | fuel + 1, n => Nat.digitChar (n % 10) :: natDigitsAux fuel (n / 10)

/-- Models Python `str(i)` for a natural number. -/
def natStr (n : Nat) : String := if n = 0 then "0" else ⟨(natDigitsAux n n).reverse⟩

/-- Numeric value of a digit character. -/
def charVal (c : Char) : Nat := c.toNat - 48

/-- Value of a little-endian digit-character list; a left inverse used to
show that `natStr` is injective. -/
def valOfDigits : List Char → Nat
  | [] => 0
  | c :: rest => charVal c + 10 * valOfDigits rest

/-! ### config.py -/

/-- config.py: divisor from the longest image side to the font size. -/
def FONT_WIDTH_RATIO : Nat := 35

/-- config.py: smallest allowed overlay font size. -/
def MIN_FONT_SIZE : Nat := 40

/-! ### File-extension dispatch (reporter.py line 40, timestamper.py lines 164-171) -/

/-- reporter.py: `filename.lower().endswith(('.png', '.jpg', '.jpeg', '.heic'))`;
files failing this test are skipped with `continue` before any processing. -/
def reporterSupported (filename : String) : Bool :=
  strEndsWith (pyLower filename) ".png" || strEndsWith (pyLower filename) ".jpg" ||
    strEndsWith (pyLower filename) ".jpeg" || strEndsWith (pyLower filename) ".heic"

/-- timestamper.py: `filename.lower().endswith(('.heic', '.png', '.jpg', '.jpeg'))`. -/
def imageSupported (filename : String) : Bool :=
  strEndsWith (pyLower filename) ".heic" || strEndsWith (pyLower filename) ".png" ||
    strEndsWith (pyLower filename) ".jpg" || strEndsWith (pyLower filename) ".jpeg"

/-- timestamper.py / meta_reader.py / doc_creator.py:
`filename.lower().endswith(('.mov', '.mp4'))`. -/
def videoSupported (filename : String) : Bool :=
  strEndsWith (pyLower filename) ".mov" || strEndsWith (pyLower filename) ".mp4"

/-- Root part of `os.path.splitext`: everything before the final dot (the
filenames processed here are basenames carrying an extension; the
leading-dot special case of hidden files is not exercised). -/
def splitextRoot (s : String) : String :=
  match splitChar '.' s.data with
  | [] => s
  | [_] => s
  | parts => ⟨List.intercalate ['.'] parts.dropLast⟩

/-- reporter.py line 156: `os.path.splitext(filename)[0] + ".png"`, the key
under which a source file's record is stored. -/
def processedName (filename : String) : String := splitextRoot filename ++ ".png"

/-! ### Python values stored in a metadata record

The reporter's record fields hold strings, integers (e.g. a scalar ISO
rating) or, for a multi-valued numeric EXIF tag read by piexif, a tuple of
integers. `json.dump` writes a tuple as a JSON array, and `json.load` reads
an array back as a Python list, so tuples and lists are distinguished here.
-/

inductive PyVal where
  | str (s : String)
  | int (n : Int)
  | tupleInts (items : List Int)
  | listInts (items : List Int)
deriving DecidableEq

/-- reporter.py `get_exif` (lines 57-100), modelled on already-decoded
values: a missing tag yields the default (the `KeyError` path); a tuple
value is decoded to text for the comment tags (`decoded` stands for the
extrinsic utf-16 decode) but returned unchanged for every other tag
("it's a numerical tuple (like Aperture), return it directly"); any other
value is returned as it is (the byte-string branches produce strings). -/
def get_exif (val : Option PyVal) (isCommentTag : Bool) (dflt : PyVal) (decoded : String) : PyVal :=
  match val with
  | none => dflt
  | some (PyVal.tupleInts items) => if isCommentTag then PyVal.str decoded else PyVal.tupleInts items
  | some v => v

/-- The record built at reporter.py lines 157-165, one field per dict key. -/
structure MediaRecord where
  OriginalFileName : PyVal
  Timestamp : PyVal
  People : PyVal
  Location_Address : PyVal
  GPS_Location : PyVal
  DeviceMake : PyVal
  DeviceModel : PyVal
  Dimensions : PyVal
  FocalLength : PyVal
  Aperture : PyVal
  ShutterSpeed : PyVal
  ISO : PyVal
  Flash : PyVal
  Comments : PyVal
deriving DecidableEq

/-! ### dms_to_dd (reporter.py lines 15-23) -/

/-- An EXIF rational: a `(numerator, denominator)` pair of integers. -/
structure DmsRat where
  num : Int
  den : Int
deriving DecidableEq

/-- reporter.py `dms_to_dd`: degrees, minutes and seconds are each a
`DmsRat`; every denominator is divided by without a zero guard, so a zero
denominator raises `ZeroDivisionError` (the `Except.error` case); float
division is modelled exactly over `ℚ`. -/
def dms_to_dd (dms : DmsRat × DmsRat × DmsRat) (ref : String) : Except String ℚ :=
  if dms.1.den = 0 ∨ dms.2.1.den = 0 ∨ dms.2.2.den = 0 then
    Except.error "ZeroDivisionError: division by zero"
  else
    Except.ok
      (if ref = "S" ∨ ref = "W" then
        -((dms.1.num : ℚ) / (dms.1.den : ℚ) + (dms.2.1.num : ℚ) / (dms.2.1.den : ℚ) / 60 +
          (dms.2.2.num : ℚ) / (dms.2.2.den : ℚ) / 3600)
      else
        (dms.1.num : ℚ) / (dms.1.den : ℚ) + (dms.2.1.num : ℚ) / (dms.2.1.den : ℚ) / 60 +
          (dms.2.2.num : ℚ) / (dms.2.2.den : ℚ) / 3600)

/-! ### Geocoding (get_addr.py and reporter.py lines 150-154)

The external call `geocode((lat, lon), language='en')` either raises (e.g.
`ValueError` for a latitude outside [-90, 90] passes straight through
geopy's `RateLimiter`, which retries only `GeocoderServiceError`), returns
`None`, or returns a location; it is modelled as an
`Except String (Option String)` input.
-/

/-- get_addr.py `get_addr`: no `try/except` surrounds the service call, so
an exception from it propagates to the caller; otherwise the address or
the literal `"Address not found"` is returned. -/
def get_addr (geocodeResult : Except String (Option String)) : Except String String :=
  match geocodeResult with
  | Except.error e => Except.error e
  | Except.ok location =>
    Except.ok (match location with
      | some addr => addr
      | none => "Address not found")

/-- reporter.py lines 150-154: the same service call wrapped in
`try/except Exception`, every outcome becoming a string. -/
def reporterGeocode (geocodeResult : Except String (Option String)) : String :=
  match geocodeResult with
  | Except.ok (some addr) => addr
  | Except.ok none => "Address not found"
  | Except.error e => "Geocoding failed: " ++ e

/-! ### The reporter's per-file body and folder loop (reporter.py lines 39-169) -/

/-- Integer rendering reused by the coordinate formatting. -/
def intStr (i : Int) : String :=
  match i with
  | Int.ofNat n => natStr n
  | Int.negSucc n => "-" ++ natStr (n + 1)

/-- Left-pads a digit string with zeros to four characters. -/
def pad4 (s : String) : String :=
  if s.length < 4 then (⟨List.replicate (4 - s.length) '0'⟩ : String) ++ s else s

/-- Models the `f"{v:.4f}"` rendering of one coordinate: the value rounded
to four decimal places (rounding-mode edge cases are immaterial to every
claim below). -/
def fmt4 (q : ℚ) : String :=
  let scaled : Int := round (q * 10000)
  let a := scaled.natAbs
  (if scaled < 0 then "-" else "") ++ natStr (a / 10000) ++ "." ++ pad4 (natStr (a % 10000))

/-- reporter.py line 149: `f"{lat_dd:.4f}, {lon_dd:.4f}"`. -/
def gpsFormat (latDD lonDD : ℚ) : String := fmt4 latDD ++ ", " ++ fmt4 lonDD

/-- The per-file inputs of the reporter's body: the GPS tags when present
(reporter.py lines 141-144) and the record assembled from all the other
extracted fields. -/
structure FileInputs where
  gpsLat : Option (DmsRat × DmsRat × DmsRat)
  gpsLon : Option (DmsRat × DmsRat × DmsRat)
  gpsLatRef : String
  gpsLonRef : String
  base : MediaRecord

/-- The GPS portion of the reporter's per-file body (reporter.py lines
146-154): when both DMS triples are present, `dms_to_dd` runs with no
guard of its own, so its `ZeroDivisionError` propagates out of the body
(only the enclosing per-file handler catches it); the geocoding call, by
contrast, is wrapped locally and always yields a string. -/
def reporterProcessFile (geo : ℚ × ℚ → Except String (Option String)) (inp : FileInputs) :
    Except String MediaRecord :=
  match inp.gpsLat, inp.gpsLon with
  | some lat, some lon =>
    match dms_to_dd lat inp.gpsLatRef with
    | Except.error e => Except.error e
    | Except.ok latDD =>
      match dms_to_dd lon inp.gpsLonRef with
      | Except.error e => Except.error e
      | Except.ok lonDD =>
        Except.ok
          { inp.base with
            GPS_Location := PyVal.str (gpsFormat latDD lonDD)
            Location_Address := PyVal.str (reporterGeocode (geo (latDD, lonDD))) }
  | _, _ => Except.ok inp.base

/-- Python dict insertion: an existing key keeps its position and gets the
new value, a new key is appended. -/
def dictInsert (m : List (String × MediaRecord)) (k : String) (v : MediaRecord) :
    List (String × MediaRecord) :=
  if m.any (fun p => p.1 = k) then m.map (fun p => if p.1 = k then (k, v) else p)
  else m ++ [(k, v)]

/-- One iteration of the reporter's folder loop: the whole per-file body
sits in `try/except Exception`, so a failing file adds nothing and the
fold goes on (reporter.py lines 44-169). -/
def reporterStep (process : String → Except String MediaRecord)
    (acc : List (String × MediaRecord)) (f : String) : List (String × MediaRecord) :=
  match process f with
  | Except.ok r => dictInsert acc (processedName f) r
  | Except.error _ => acc

/-- reporter.py `generate_metadata_report`: files failing the image
extension test are skipped up front; each surviving file runs the per-file
body (supplied extrinsically as `process`) under the per-file handler. -/
def generate_metadata_report (process : String → Except String MediaRecord)
    (files : List String) : List (String × MediaRecord) :=
  (files.filter (fun f => reporterSupported f)).foldl (reporterStep process) []

/-! ### timestamper.py: per-image processing and the folder walk -/

/-- Outcome of one file in the timestamping walk; there is no error
constructor reachable from `timestamp_image` because its body's exception
is caught. -/
inductive FileResult where
  | written (name : String)
  | skippedNoDate
  | failed (msg : String)
  | videoDispatched
  | ignored
deriving DecidableEq

/-- timestamper.py `timestamp_image` (lines 106-154): `get_creation_date`
is consulted first (it is total: every fallible step inside it has its own
handler); a missing date skips the file; everything else runs inside
`try/except Exception`, whose body is supplied extrinsically as `body`
(decode, overlay, collision-avoiding save), so a raised exception becomes
a logged `failed` outcome, never an escape. -/
def timestamp_image (getDate : String → Option String)
    (body : String → Except String String) (f : String) : FileResult :=
  match getDate f with
  | none => FileResult.skippedNoDate
  | some _ =>
    match body f with
    | Except.ok out => FileResult.written out
    | Except.error e => FileResult.failed e

/-- timestamper.py lines 166-171: extension dispatch of the folder walk. -/
def dispatchFile (getDate : String → Option String)
    (body : String → Except String String) (f : String) : FileResult :=
  if imageSupported f then timestamp_image getDate body f
  else if videoSupported f then FileResult.videoDispatched
  else FileResult.ignored

/-- timestamper.py `process_folder_for_timestamping` (lines 156-174): the
walk records one outcome per directory entry. -/
def process_folder_for_timestamping (getDate : String → Option String)
    (body : String → Except String String) (files : List String) :
    List (String × FileResult) :=
  files.foldl (fun acc f => acc ++ [(f, dispatchFile getDate body f)]) []

/-! ### Collision-avoiding output names (timestamper.py lines 143-148) -/

/-- The candidate output filename with counter `i`: the bare stem for the
first attempt, then `stem + str(i) + ".png"`. -/
def outName (stem : String) (i : Nat) : String :=
  if i = 0 then stem ++ ".png" else stem ++ natStr i ++ ".png"

/-- The `while os.path.exists(final_dir)` loop: bump the counter until the
candidate is not among the existing names; the fuel is one more than the
number of existing files, which the pigeonhole argument below shows is
always enough. -/
def findFreeNameAux (existing : List String) (stem : String) : Nat → Nat → String
  | 0, i => outName stem i
  | fuel + 1, i =>
    if outName stem i ∈ existing then findFreeNameAux existing stem fuel (i + 1)
    else outName stem i

/-- The filename `timestamp_image` finally saves under, given the names
already present in the output folder. -/
def findFreeName (existing : List String) (stem : String) : String :=
  findFreeNameAux existing stem (existing.length + 1) 0

/-! ### Font sizing (timestamper.py lines 126-127, config.py) -/

/-- timestamper.py: `longest_side = max(image.width, image.height)` and
`font_size = max(MIN_FONT_SIZE, int(longest_side / FONT_WIDTH_RATIO))`;
`int()` of the nonnegative float quotient is the floor, i.e. `Nat`
division at these magnitudes. -/
def timestampFontSize (width height : Nat) : Nat :=
  max MIN_FONT_SIZE (max width height / FONT_WIDTH_RATIO)

/-! ### meta_reader.py: get_creation_date -/

/-- Per-file facts `get_creation_date` consults, each fallible stage an
explicit input: the hachoir video date (already `strftime`-formatted), the
raw EXIF `DateTimeOriginal` string, and the formatted filesystem
modification time (`None` when even that is unavailable). -/
structure FileMeta where
  name : String
  videoDate : Except Unit (Option String)
  exifDateTimeOriginal : Except Unit (Option String)
  mtime : Option String

/-- meta_reader.py lines 30-34: `date_part, time_part = s.split(' ')`
(raising unless there are exactly two pieces, caught by the enclosing
handler) followed by `date_part.replace(':', '-')`. -/
def formatExifDate (raw : String) : Option String :=
  match splitChar ' ' raw.data with
  | [datePart, timePart] =>
    some ((⟨datePart.map (fun c => if c = ':' then '-' else c)⟩ : String) ++ " " ++
      (⟨timePart⟩ : String))
  | _ => none

/-- meta_reader.py lines 14-22: the video branch, producing a date only for
a video extension whose hachoir metadata has `creation_date`; a raised or
missing value falls through. -/
def videoStage (f : FileMeta) : Option String :=
  if videoSupported f.name then
    match f.videoDate with
    | Except.ok (some d) => some d
    | _ => none
  else none

/-- meta_reader.py lines 25-42: the EXIF branch; a raised extraction, a
missing tag or a malformed date string all fall through. -/
def exifStage (f : FileMeta) : Option String :=
  match f.exifDateTimeOriginal with
  | Except.ok (some raw) => formatExifDate raw
  | _ => none

/-- meta_reader.py `get_creation_date`: video metadata, then EXIF, then
the filesystem modification time, `none` only when all three fail. -/
def get_creation_date (f : FileMeta) : Option String :=
  match videoStage f with
  | some d => some d
  | none =>
    match exifStage f with
    | some d => some d
    | none => f.mtime

/-! ### JSON round trip (reporter.py lines 171-173, doc_creator.py lines 18-30) -/

/-- Net effect of `json.dump` followed by `json.load` on a record field:
strings and integers survive unchanged, and a Python tuple is written as a
JSON array, which loads back as a Python list. -/
def jsonRoundTrip : PyVal → PyVal
  | PyVal.tupleInts items => PyVal.listInts items
  | v => v

/-- The reloaded record, field for field. -/
def jsonRoundTripRecord (r : MediaRecord) : MediaRecord where
  OriginalFileName := jsonRoundTrip r.OriginalFileName
  Timestamp := jsonRoundTrip r.Timestamp
  People := jsonRoundTrip r.People
  Location_Address := jsonRoundTrip r.Location_Address
  GPS_Location := jsonRoundTrip r.GPS_Location
  DeviceMake := jsonRoundTrip r.DeviceMake
  DeviceModel := jsonRoundTrip r.DeviceModel
  Dimensions := jsonRoundTrip r.Dimensions
  FocalLength := jsonRoundTrip r.FocalLength
  Aperture := jsonRoundTrip r.Aperture
  ShutterSpeed := jsonRoundTrip r.ShutterSpeed
  ISO := jsonRoundTrip r.ISO
  Flash := jsonRoundTrip r.Flash
  Comments := jsonRoundTrip r.Comments

/-- Whether a field value is a Python tuple. -/
def isTupleVal : PyVal → Bool
  | PyVal.tupleInts _ => true
  | _ => false

/-- Whether any field of the record is a Python tuple. -/
def recordHasTuple (r : MediaRecord) : Bool :=
  isTupleVal r.OriginalFileName || isTupleVal r.Timestamp || isTupleVal r.People ||
    isTupleVal r.Location_Address || isTupleVal r.GPS_Location || isTupleVal r.DeviceMake ||
    isTupleVal r.DeviceModel || isTupleVal r.Dimensions || isTupleVal r.FocalLength ||
    isTupleVal r.Aperture || isTupleVal r.ShutterSpeed || isTupleVal r.ISO ||
    isTupleVal r.Flash || isTupleVal r.Comments

/-! ### doc_creator.py: create_word_document (lines 55-160) -/

/-- One entry of the loaded report as the document loop reads it: the dict
key (the processed filename) and the record's `OriginalFileName`. -/
structure DocEntry where
  key : String
  originalFileName : String
deriving DecidableEq

/-- What the document loop does with one entry. -/
inductive EntryOutcome where
  | missingSkip
  | frameFailSkip
  | included
deriving DecidableEq

/-- doc_creator.py lines 74-92: a key naming no file in the media folder is
warned about and skipped; a video whose middle frame cannot be extracted is
skipped; everything else gets a page. -/
def entryOutcome (fileExists frameOk : String → Bool) (ent : DocEntry) : EntryOutcome :=
  if fileExists ent.key = false then EntryOutcome.missingSkip
  else if videoSupported ent.originalFileName && !(frameOk ent.key) then EntryOutcome.frameFailSkip
  else EntryOutcome.included

/-- doc_creator.py `create_word_document`: the loop over the report's
entries, one outcome per entry. -/
def create_word_document (fileExists frameOk : String → Bool) (entries : List DocEntry) :
    List (DocEntry × EntryOutcome) :=
  entries.foldl (fun acc ent => acc ++ [(ent, entryOutcome fileExists frameOk ent)]) []

/-! ### Helper lemmas -/

/-- A left fold that appends one element per input is a map. -/
theorem foldl_append_eq_map {α β : Type} (g : α → β) (l : List α) (acc : List β) :
    l.foldl (fun a x => a ++ [g x]) acc = acc ++ l.map g := by
  induction l generalizing acc with
  | nil => simp
  | cons x xs ih => simp [ih]

/-- A file whose per-file body raises contributes nothing to the report:
the folder loop behaves as if the file were absent. -/
theorem generate_metadata_report_drop (process : String → Except String MediaRecord)
    (xs ys : List String) (bad : String) (e : String)
    (hbad : process bad = Except.error e) :
    generate_metadata_report process (xs ++ bad :: ys) =
      generate_metadata_report process (xs ++ ys) := by
  unfold generate_metadata_report
  have h1 : xs ++ bad :: ys = xs ++ [bad] ++ ys := by simp
  rw [h1, List.filter_append, List.filter_append, List.foldl_append, List.foldl_append,
    List.filter_append, List.foldl_append]
  by_cases hs : reporterSupported bad
  · simp [List.filter_cons, hs, reporterStep, hbad]
  · simp [List.filter_cons, hs]

/-- The value of a decimal digit character produced by `Nat.digitChar`. -/
theorem charVal_digitChar {d : Nat} (h : d < 10) : charVal (Nat.digitChar d) = d := by
  interval_cases d <;> rfl

/-- `valOfDigits` undoes `natDigitsAux` whenever the fuel suffices. -/
theorem valOfDigits_natDigitsAux : ∀ fuel n, n ≤ fuel → valOfDigits (natDigitsAux fuel n) = n := by
  intro fuel
  induction fuel with
  | zero => intro n hn; interval_cases n; rfl
  | succ fuel ih =>
    intro n hn
    match n with
    | 0 => rfl
    | m + 1 =>
      show valOfDigits (Nat.digitChar ((m + 1) % 10) :: natDigitsAux fuel ((m + 1) / 10)) = m + 1
      have hdiv : (m + 1) / 10 ≤ fuel := by
        have := Nat.div_lt_self (Nat.succ_pos m) (by norm_num : 1 < 10)
        omega
      rw [valOfDigits, ih _ hdiv, charVal_digitChar (Nat.mod_lt _ (by norm_num))]
      exact Nat.mod_add_div (m + 1) 10

/-- Reading the digits of `natStr n` back gives `n`. -/
theorem valOf_reverse_natStr (n : Nat) : valOfDigits (natStr n).data.reverse = n := by
  by_cases h : n = 0
  · subst h; rfl
  · unfold natStr
    rw [if_neg h]
    show valOfDigits ((natDigitsAux n n).reverse.reverse) = n
    rw [List.reverse_reverse]
    exact valOfDigits_natDigitsAux n n le_rfl

/-- Python's `str` on naturals is injective. -/
theorem natStr_injective : Function.Injective natStr := by
  intro m n h
  have h2 := congrArg (fun s => valOfDigits s.data.reverse) h
  simpa [valOf_reverse_natStr] using h2

/-- `natStr` is never the empty string. -/
theorem natStr_data_ne_nil (n : Nat) : (natStr n).data ≠ [] := by
  by_cases h : n = 0
  · subst h; decide
  · unfold natStr
    rw [if_neg h]
    show (natDigitsAux n n).reverse ≠ []
    match n, h with
    | m + 1, _ => simp [natDigitsAux]

/-- Candidate output filenames with different counters are different
strings. -/
theorem outName_injective (stem : String) : Function.Injective (outName stem) := by
  intro i j h
  unfold outName at h
  by_cases hi : i = 0 <;> by_cases hj : j = 0
  · omega
  · exfalso
    rw [if_pos hi, if_neg hj] at h
    have hd := congrArg String.data h
    rw [String.data_append, String.data_append, String.data_append, List.append_assoc] at hd
    have h2 := List.append_cancel_left hd
    have hlen := congrArg List.length h2
    rw [List.length_append] at hlen
    exact natStr_data_ne_nil j (List.length_eq_zero.mp (by omega))
  · exfalso
    rw [if_neg hi, if_pos hj] at h
    have hd := congrArg String.data h
    rw [String.data_append, String.data_append, String.data_append, List.append_assoc] at hd
    have h2 := (List.append_cancel_left hd).symm
    have hlen := congrArg List.length h2
    rw [List.length_append] at hlen
    exact natStr_data_ne_nil i (List.length_eq_zero.mp (by omega))
  · rw [if_neg hi, if_neg hj] at h
    have hd := congrArg String.data h
    rw [String.data_append, String.data_append, String.data_append, String.data_append,
      List.append_assoc, List.append_assoc] at hd
    have h2 := List.append_cancel_left hd
    have h3 := List.append_cancel_right h2
    exact natStr_injective (String.ext h3)

/-- Some counter below the number of existing files gives an unused
candidate name (pigeonhole: the candidates are pairwise distinct). -/
theorem exists_free_index (existing : List String) (stem : String) :
    ∃ j, j ≤ existing.length ∧ outName stem j ∉ existing := by
  by_contra hcon
  push_neg at hcon
  have hsub : (List.range (existing.length + 1)).map (outName stem) ⊆ existing := by
    intro x hx
    rw [List.mem_map] at hx
    obtain ⟨j, hj, rfl⟩ := hx
    rw [List.mem_range] at hj
    exact hcon j (by omega)
  have hnd : ((List.range (existing.length + 1)).map (outName stem)).Nodup :=
    (List.nodup_range _).map (outName_injective stem)
  have hle := (hnd.subperm hsub).length_le
  simp at hle

/-- If some counter in the fuel window is free, the collision loop returns
a name that is not among the existing ones. -/
theorem findFreeNameAux_not_mem (existing : List String) (stem : String) :
    ∀ fuel i, (∃ j, i ≤ j ∧ j < i + fuel ∧ outName stem j ∉ existing) →
      findFreeNameAux existing stem fuel i ∉ existing := by
  intro fuel
  induction fuel with
  | zero =>
    rintro i ⟨j, h1, h2, _⟩
    omega
  | succ fuel ih =>
    rintro i ⟨j, h1, h2, h3⟩
    unfold findFreeNameAux
    by_cases hmem : outName stem i ∈ existing
    · rw [if_pos hmem]
      have hji : j ≠ i := fun hji => h3 (hji ▸ hmem)
      exact ih (i + 1) ⟨j, by omega, by omega, h3⟩
    · rw [if_neg hmem]
      exact hmem

/-- The name the collision loop settles on is not an existing name. -/
theorem findFreeName_not_mem (existing : List String) (stem : String) :
    findFreeName existing stem ∉ existing := by
  obtain ⟨j, hj, hfree⟩ := exists_free_index existing stem
  exact findFreeNameAux_not_mem existing stem (existing.length + 1) 0 ⟨j, by omega, by omega, hfree⟩

/-- The collision loop always returns a candidate of the expected shape. -/
theorem findFreeNameAux_shape (existing : List String) (stem : String) :
    ∀ fuel i, ∃ k, findFreeNameAux existing stem fuel i = outName stem k := by
  intro fuel
  induction fuel with
  | zero => exact fun i => ⟨i, rfl⟩
  | succ fuel ih =>
    intro i
    unfold findFreeNameAux
    by_cases h : outName stem i ∈ existing
    · rw [if_pos h]
      exact ih (i + 1)
    · rw [if_neg h]
      exact ⟨i, rfl⟩

/-- A short suffix of a list is a suffix of any longer suffix of the same
list. -/
theorem suffix_of_suffix_length_le {a b l : List Char} (ha : a <:+ l) (hb : b <:+ l)
    (hab : a.length ≤ b.length) : a <:+ b := by
  obtain ⟨t1, ht1⟩ := ha
  obtain ⟨t2, ht2⟩ := hb
  have hlen1 := congrArg List.length ht1
  have hlen2 := congrArg List.length ht2
  simp [List.length_append] at hlen1 hlen2
  have hl : t2.length ≤ t1.length := by omega
  have hdrop : b.drop (t1.length - t2.length) = a := by
    have hb' : b = l.drop t2.length := by rw [← ht2, List.drop_left]
    have ha' : a = l.drop t1.length := by rw [← ht1, List.drop_left]
    rw [hb', List.drop_drop, ha']
    congr 1
    omega
  rw [← hdrop]
  exact List.drop_suffix _ _

/-- Two incompatible extensions cannot both end the same name. -/
theorem suffix_excl {a b l : List Char} (ha : a <:+ l) (hb : b <:+ l)
    (hlen : a.length ≤ b.length) (hne : ¬ a <:+ b) : False :=
  hne (suffix_of_suffix_length_le ha hb hlen)

/-- A name with a video extension never passes the reporter's image
extension test. -/
theorem video_not_reporterSupported (f : String) (h : videoSupported f = true) :
    reporterSupported f = false := by
  unfold videoSupported at h
  unfold reporterSupported
  rw [Bool.eq_false_iff]
  intro habs
  simp only [strEndsWith, Bool.or_eq_true, decide_eq_true_eq] at h habs
  rcases h with h | h <;>
    rcases habs with ((hh | hh) | hh) | hh <;>
      exact suffix_excl h hh (by decide) (by decide)

/-- Each component of the round trip fixes exactly the non-tuple values. -/
theorem jsonRoundTrip_eq_self (v : PyVal) : jsonRoundTrip v = v ↔ isTupleVal v = false := by
  cases v <;> simp [jsonRoundTrip, isTupleVal]

/-- A record with every field set to a plain sentinel string, standing in
for the non-GPS fields extracted from a file. -/
def blankRecord : MediaRecord where
  OriginalFileName := PyVal.str "a.jpg"
  Timestamp := PyVal.str "2024-01-01 00:00:00"
  People := PyVal.str "NULL"
  Location_Address := PyVal.str "NULL"
  GPS_Location := PyVal.str "NULL"
  DeviceMake := PyVal.str "NULL"
  DeviceModel := PyVal.str "NULL"
  Dimensions := PyVal.str "100x100"
  FocalLength := PyVal.str "NULL"
  Aperture := PyVal.str "NULL"
  ShutterSpeed := PyVal.str "NULL"
  ISO := PyVal.str "NULL"
  Flash := PyVal.str "No Flash"
  Comments := PyVal.str "NULL"

/-! ### Claim theorems -/

/-- Claim C1: `dms_to_dd` converts a DMS triple of rational pairs to
decimal degrees as `degrees + minutes/60 + seconds/3600`, negating the
result exactly when the hemisphere reference is "S" or "W". -/
theorem C1_dms_to_dd_conversion (dms : DmsRat × DmsRat × DmsRat) (ref : String)
    (h1 : dms.1.den ≠ 0) (h2 : dms.2.1.den ≠ 0) (h3 : dms.2.2.den ≠ 0) :
    dms_to_dd dms ref =
      Except.ok
        (if ref = "S" ∨ ref = "W" then
          -((dms.1.num : ℚ) / (dms.1.den : ℚ) + (dms.2.1.num : ℚ) / (dms.2.1.den : ℚ) / 60 +
            (dms.2.2.num : ℚ) / (dms.2.2.den : ℚ) / 3600)
        else
          (dms.1.num : ℚ) / (dms.1.den : ℚ) + (dms.2.1.num : ℚ) / (dms.2.1.den : ℚ) / 60 +
            (dms.2.2.num : ℚ) / (dms.2.2.den : ℚ) / 3600) := by
  unfold dms_to_dd
  rw [if_neg]
  push_neg
  exact ⟨h1, h2, h3⟩

/-- Claim C1 witness: 40 degrees, 0 minutes, 0 seconds gives 40.0 with
reference "N" and -40.0 with reference "S". -/
theorem C1_dms_to_dd_conversion_witness :
    dms_to_dd (⟨40, 1⟩, ⟨0, 1⟩, ⟨0, 1⟩) "N" = Except.ok 40 ∧
    dms_to_dd (⟨40, 1⟩, ⟨0, 1⟩, ⟨0, 1⟩) "S" = Except.ok (-40) := by
  constructor
  · rw [C1_dms_to_dd_conversion (⟨40, 1⟩, ⟨0, 1⟩, ⟨0, 1⟩) "N" (by decide) (by decide) (by decide)]
    norm_num
    decide
  · rw [C1_dms_to_dd_conversion (⟨40, 1⟩, ⟨0, 1⟩, ⟨0, 1⟩) "S" (by decide) (by decide) (by decide)]
    norm_num

/-- Claim C5: the overlay font size is
`max(MIN_FONT_SIZE, longest_side / FONT_WIDTH_RATIO)`, and any image whose
longest side is below `FONT_WIDTH_RATIO * MIN_FONT_SIZE` gets exactly
`MIN_FONT_SIZE`. -/
theorem C5_font_size_floor (width height : Nat) :
    timestampFontSize width height = max MIN_FONT_SIZE (max width height / FONT_WIDTH_RATIO) ∧
    (max width height < FONT_WIDTH_RATIO * MIN_FONT_SIZE →
      timestampFontSize width height = MIN_FONT_SIZE) := by
  refine ⟨rfl, fun h => ?_⟩
  unfold timestampFontSize MIN_FONT_SIZE FONT_WIDTH_RATIO at *
  have h39 : max width height / 35 < 40 := by
    rw [Nat.div_lt_iff_lt_mul (by norm_num)]
    omega
  exact Nat.max_eq_left (le_of_lt h39)

/-- Claim C5 witness: an 800 by 600 image is below the threshold and gets
font size 40. -/
theorem C5_font_size_floor_witness :
    max 800 600 < FONT_WIDTH_RATIO * MIN_FONT_SIZE ∧
    timestampFontSize 800 600 = MIN_FONT_SIZE :=
  ⟨by decide, (C5_font_size_floor 800 600).2 (by decide)⟩

/-- Claim C3 counterexample: `get_addr` has no handler of its own, so an
exception raised by the geocoding service call (for example the
`ValueError` that geopy raises for a latitude outside [-90, 90], which its
`RateLimiter` does not swallow) propagates to the caller instead of being
returned as data — the Geocoder as implemented in get_addr.py can raise. -/
theorem C3_geocoder_counterexample :
    get_addr (Except.error "ValueError: Latitude must be in the [-90; 90] range.") =
      Except.error "ValueError: Latitude must be in the [-90; 90] range." := rfl

/-- Claim C3 (amended): the reporter's inline geocoding never raises — it
stores the address, "Address not found", or "Geocoding failed: <reason>" —
while the standalone `get_addr` returns the address or "Address not found"
when the service call returns, but propagates the service call's
exception. -/
theorem C3_geocoding_failures_as_data (r : Except String (Option String)) :
    (∀ e, r = Except.error e →
      get_addr r = Except.error e ∧ reporterGeocode r = "Geocoding failed: " ++ e) ∧
    (r = Except.ok none →
      get_addr r = Except.ok "Address not found" ∧ reporterGeocode r = "Address not found") ∧
    (∀ a, r = Except.ok (some a) → get_addr r = Except.ok a ∧ reporterGeocode r = a) := by
  refine ⟨fun e he => ?_, fun he => ?_, fun a ha => ?_⟩
  · subst he; exact ⟨rfl, rfl⟩
  · subst he; exact ⟨rfl, rfl⟩
  · subst ha; exact ⟨rfl, rfl⟩

/-- Claim C3 witness: concrete service outcomes for the amended claim. -/
theorem C3_geocoding_failures_as_data_witness :
    get_addr (Except.ok (some "1 Main Street, Springfield")) =
      Except.ok "1 Main Street, Springfield" ∧
    reporterGeocode (Except.error "timeout") = "Geocoding failed: " ++ "timeout" ∧
    reporterGeocode (Except.ok none) = "Address not found" :=
  ⟨((C3_geocoding_failures_as_data _).2.2 "1 Main Street, Springfield" rfl).1,
    ((C3_geocoding_failures_as_data _).1 "timeout" rfl).2,
    ((C3_geocoding_failures_as_data _).2.1 rfl).2⟩

/-- A record exactly as the reporter can build it when the EXIF
`ISOSpeedRatings` tag is multi-valued: piexif hands `get_exif` a tuple of
integers, and `get_exif` returns a non-comment tuple unchanged, so the
tuple lands in the record's ISO field. -/
def isoTupleRecord : MediaRecord :=
  { blankRecord with ISO := PyVal.tupleInts [100, 200] }

/-- Claim C8 counterexample: a record whose ISO field is a tuple (which
`get_exif` produces unchanged for a multi-valued numeric tag) does not
survive the JSON round trip field-for-field: `json.dump` writes the tuple
as an array and `json.load` returns a list, which Python compares unequal
to the original tuple. -/
theorem C8_roundtrip_counterexample :
    get_exif (some (PyVal.tupleInts [100, 200])) false (PyVal.str "NULL") "" =
      PyVal.tupleInts [100, 200] ∧
    (jsonRoundTripRecord isoTupleRecord).ISO = PyVal.listInts [100, 200] ∧
    jsonRoundTripRecord isoTupleRecord ≠ isoTupleRecord :=
  ⟨rfl, rfl, by decide⟩

/-- Claim C8 (amended): a report record survives the `json.dump` /
`json.load` round trip field-for-field exactly when none of its fields is
a Python tuple; string- and integer-valued fields (every field except a
multi-valued ISO) always do. -/
theorem C8_report_roundtrip (r : MediaRecord) :
    jsonRoundTripRecord r = r ↔ recordHasTuple r = false := by
  cases r
  simp only [jsonRoundTripRecord, recordHasTuple, MediaRecord.mk.injEq, Bool.or_eq_false_iff,
    jsonRoundTrip_eq_self]
  tauto

/-- Claim C2: both folder loops contain a per-file exception — the
reporter's loop drops the failing file and processes the rest exactly as
if it were absent, and the timestamping walk records a caught, logged
`failed` outcome for the file while every other file's outcome is
unaffected; no exception escapes either per-file boundary (the outcome
types carry no exception channel). -/
theorem C2_per_file_error_containment (process : String → Except String MediaRecord)
    (getDate : String → Option String) (body : String → Except String String)
    (xs ys : List String) (bad e d : String)
    (hproc : process bad = Except.error e)
    (himg : imageSupported bad = true)
    (hdate : getDate bad = some d)
    (hbody : body bad = Except.error e) :
    generate_metadata_report process (xs ++ bad :: ys) =
      generate_metadata_report process (xs ++ ys) ∧
    process_folder_for_timestamping getDate body (xs ++ bad :: ys) =
      process_folder_for_timestamping getDate body xs ++
        (bad, FileResult.failed e) :: process_folder_for_timestamping getDate body ys := by
  constructor
  · exact generate_metadata_report_drop process xs ys bad e hproc
  · unfold process_folder_for_timestamping
    rw [foldl_append_eq_map, foldl_append_eq_map, foldl_append_eq_map]
    simp only [List.nil_append, List.map_append, List.map_cons]
    congr 1
    simp [dispatchFile, timestamp_image, himg, hdate, hbody]

/-- Concrete per-file body for the C2 witness: fails on the one bad file. -/
def c2process : String → Except String MediaRecord := fun f =>
  if f = "bad.jpg" then Except.error "boom" else Except.ok blankRecord

/-- Concrete creation-date lookup for the C2 witness. -/
def c2getDate : String → Option String := fun _ => some "2024-01-01 00:00:00"

/-- Concrete timestamping body for the C2 witness. -/
def c2body : String → Except String String := fun f =>
  if f = "bad.jpg" then Except.error "boom" else Except.ok (processedName f)

/-- Claim C2 witness: with one failing file between two good ones, the
report equals the report without the bad file and the timestamping walk
logs a `failed` outcome in place. -/
theorem C2_per_file_error_containment_witness :
    c2process "bad.jpg" = Except.error "boom" ∧
    imageSupported "bad.jpg" = true ∧
    c2getDate "bad.jpg" = some "2024-01-01 00:00:00" ∧
    c2body "bad.jpg" = Except.error "boom" ∧
    generate_metadata_report c2process (["a.jpg"] ++ "bad.jpg" :: ["c.jpg"]) =
      generate_metadata_report c2process (["a.jpg"] ++ ["c.jpg"]) ∧
    process_folder_for_timestamping c2getDate c2body (["a.jpg"] ++ "bad.jpg" :: ["c.jpg"]) =
      process_folder_for_timestamping c2getDate c2body ["a.jpg"] ++
        ("bad.jpg", FileResult.failed "boom") ::
          process_folder_for_timestamping c2getDate c2body ["c.jpg"] := by
  have h := C2_per_file_error_containment c2process c2getDate c2body ["a.jpg"] ["c.jpg"]
    "bad.jpg" "boom" "2024-01-01 00:00:00" rfl (by decide) rfl rfl
  exact ⟨rfl, by decide, rfl, rfl, h.1, h.2⟩

/-- Claim C4 counterexample: the reporter's folder loop filters on the
image extensions only (`.png`, `.jpg`, `.jpeg`, `.heic`), so a `.mp4`
file is skipped by `continue` before any extraction and receives no
MediaRecord at all (there is no video path in reporter.py, and no "N/A"
sentinel is ever written by it), contradicting the claim that video files
receive a MediaRecord in the report. -/
theorem C4_video_dispatch_counterexample :
    videoSupported "video.mp4" = true ∧
    generate_metadata_report (fun _ => Except.ok blankRecord) ["video.mp4"] = [] := by
  exact ⟨by decide, by decide⟩

/-- Claim C4 (amended): the Reporter dispatches on the file extension but
only to the image path — the report over any folder equals the report
over its image-extension files, and no file with a video extension ever
passes the reporter's filter. -/
theorem C4_reporter_image_only (files : List String)
    (process : String → Except String MediaRecord) :
    generate_metadata_report process files =
      generate_metadata_report process (files.filter (fun f => reporterSupported f)) ∧
    ∀ f, videoSupported f = true → reporterSupported f = false := by
  constructor
  · unfold generate_metadata_report
    rw [List.filter_filter]
    simp
  · exact fun f h => video_not_reporterSupported f h

/-- Claim C4 witness: a folder holding one video and one image reports
exactly its image part, and the video extension fails the filter. -/
theorem C4_reporter_image_only_witness :
    videoSupported "video.mp4" = true ∧
    reporterSupported "video.mp4" = false ∧
    generate_metadata_report (fun _ => Except.ok blankRecord) ["video.mp4", "a.jpg"] =
      generate_metadata_report (fun _ => Except.ok blankRecord)
        (["video.mp4", "a.jpg"].filter (fun f => reporterSupported f)) :=
  ⟨by decide, (C4_reporter_image_only ["video.mp4", "a.jpg"] (fun _ => Except.ok blankRecord)).2
      "video.mp4" (by decide),
    (C4_reporter_image_only ["video.mp4", "a.jpg"] (fun _ => Except.ok blankRecord)).1⟩

/-- Claim C6: whatever names already exist in the output folder, the
collision loop returns an unused name; writing a second file with the
same stem (the first output now existing) yields a name distinct from the
first and still of the `stem ++ counter ++ ".png"` shape. -/
theorem C6_collision_avoidance (existing : List String) (stem : String) :
    findFreeName existing stem ∉ existing ∧
    findFreeName (findFreeName existing stem :: existing) stem ≠ findFreeName existing stem ∧
    findFreeName (findFreeName existing stem :: existing) stem ∉ existing ∧
    ∃ i, findFreeName (findFreeName existing stem :: existing) stem = outName stem i := by
  have h1 := findFreeName_not_mem existing stem
  have h2 := findFreeName_not_mem (findFreeName existing stem :: existing) stem
  rw [List.mem_cons] at h2
  push_neg at h2
  exact ⟨h1, h2.1, h2.2, findFreeNameAux_shape _ stem _ 0⟩

/-- Claim C7: `get_creation_date` returns the format-specific date when
one of the two metadata stages extracts one, falls back to the formatted
filesystem modification time when both fail, and returns `none` exactly
when the stages fail and the modification time is unavailable too. -/
theorem C7_creation_date_fallback (f : FileMeta) :
    (get_creation_date f = none ↔
      videoStage f = none ∧ exifStage f = none ∧ f.mtime = none) ∧
    (videoStage f = none → exifStage f = none → get_creation_date f = f.mtime) ∧
    (∀ d, videoStage f = some d → get_creation_date f = some d) ∧
    (∀ d, videoStage f = none → exifStage f = some d → get_creation_date f = some d) := by
  unfold get_creation_date
  rcases hv : videoStage f with _ | dv <;> rcases he : exifStage f with _ | de <;> simp [hv, he]

/-- Claim C7 witness: a JPEG with a well-formed EXIF date gets that date
reformatted; one without EXIF falls back to the modification time. -/
theorem C7_creation_date_fallback_witness :
    exifStage ⟨"a.jpg", Except.ok none, Except.ok (some "2023:01:05 10:20:30"),
        some "2024-02-03 04:05:06"⟩ = some "2023-01-05 10:20:30" ∧
    get_creation_date ⟨"a.jpg", Except.ok none, Except.ok (some "2023:01:05 10:20:30"),
        some "2024-02-03 04:05:06"⟩ = some "2023-01-05 10:20:30" ∧
    get_creation_date ⟨"b.jpg", Except.ok none, Except.error (),
        some "2024-02-03 04:05:06"⟩ = some "2024-02-03 04:05:06" := by
  refine ⟨by decide, ?_, ?_⟩
  · exact (C7_creation_date_fallback _).2.2.2 "2023-01-05 10:20:30" (by decide) (by decide)
  · exact (C7_creation_date_fallback _).2.1 (by decide) rfl

/-- Claim C9: the document loop records an outcome for every report entry
in order (so it continues past skipped ones); an entry whose key names no
existing file is skipped with a warning, and every included entry's key
names an existing file. -/
theorem C9_document_skips_missing (fileExists frameOk : String → Bool)
    (entries : List DocEntry) :
    create_word_document fileExists frameOk entries =
      entries.map (fun ent => (ent, entryOutcome fileExists frameOk ent)) ∧
    (∀ ent ∈ entries, fileExists ent.key = false →
      entryOutcome fileExists frameOk ent = EntryOutcome.missingSkip) ∧
    (∀ ent ∈ entries, entryOutcome fileExists frameOk ent = EntryOutcome.included →
      fileExists ent.key = true) := by
  refine ⟨?_, ?_, ?_⟩
  · unfold create_word_document
    rw [foldl_append_eq_map]
    simp
  · intro ent _ hmiss
    unfold entryOutcome
    rw [if_pos hmiss]
  · intro ent _ hinc
    cases hfe : fileExists ent.key
    · unfold entryOutcome at hinc
      rw [if_pos hfe] at hinc
      cases hinc
    · rfl

/-- Claim C9 witness: of two entries, the one whose key exists is
included and the one whose key is missing is skipped, and the loop still
produces both outcomes. -/
theorem C9_document_skips_missing_witness :
    (fun k => k == "a.png") "gone.png" = false ∧
    entryOutcome (fun k => k == "a.png") (fun _ => true) ⟨"gone.png", "b.jpg"⟩ =
      EntryOutcome.missingSkip ∧
    create_word_document (fun k => k == "a.png") (fun _ => true)
        [⟨"a.png", "a.jpg"⟩, ⟨"gone.png", "b.jpg"⟩] =
      [(⟨"a.png", "a.jpg"⟩, EntryOutcome.included),
        (⟨"gone.png", "b.jpg"⟩, EntryOutcome.missingSkip)] := by
  refine ⟨by decide, ?_, ?_⟩
  · exact (C9_document_skips_missing (fun k => k == "a.png") (fun _ => true)
      [⟨"a.png", "a.jpg"⟩, ⟨"gone.png", "b.jpg"⟩]).2.1 ⟨"gone.png", "b.jpg"⟩ (by simp) (by decide)
  · rw [(C9_document_skips_missing (fun k => k == "a.png") (fun _ => true)
      [⟨"a.png", "a.jpg"⟩, ⟨"gone.png", "b.jpg"⟩]).1]
    decide

/-- Claim C10: `dms_to_dd` succeeds on every triple whose three
denominators are nonzero and raises `ZeroDivisionError` whenever one is
zero; inside the reporter the raise escapes the GPS block (only the
per-file handler contains it), so the file's record is dropped from the
report while every other file is processed as before. -/
theorem C10_zero_denominator_division (dms : DmsRat × DmsRat × DmsRat) (ref : String)
    (geo : ℚ × ℚ → Except String (Option String)) (inputs : String → FileInputs)
    (xs ys : List String) (bad : String)
    (lat lon : DmsRat × DmsRat × DmsRat)
    (hlat : (inputs bad).gpsLat = some lat)
    (hlon : (inputs bad).gpsLon = some lon)
    (hz : lat.1.den = 0 ∨ lat.2.1.den = 0 ∨ lat.2.2.den = 0) :
    ((dms.1.den ≠ 0 ∧ dms.2.1.den ≠ 0 ∧ dms.2.2.den ≠ 0) →
      (dms_to_dd dms ref).isOk = true) ∧
    ((dms.1.den = 0 ∨ dms.2.1.den = 0 ∨ dms.2.2.den = 0) →
      (dms_to_dd dms ref).isOk = false) ∧
    (reporterProcessFile geo (inputs bad)).isOk = false ∧
    generate_metadata_report (fun f => reporterProcessFile geo (inputs f)) (xs ++ bad :: ys) =
      generate_metadata_report (fun f => reporterProcessFile geo (inputs f)) (xs ++ ys) := by
  have hdd : dms_to_dd lat (inputs bad).gpsLatRef =
      Except.error "ZeroDivisionError: division by zero" := by
    unfold dms_to_dd
    rw [if_pos hz]
  have hpf : reporterProcessFile geo (inputs bad) =
      Except.error "ZeroDivisionError: division by zero" := by
    unfold reporterProcessFile
    rw [hlat, hlon]
    simp only [hdd]
  refine ⟨fun ⟨h1, h2, h3⟩ => ?_, fun h => ?_, ?_, ?_⟩
  · unfold dms_to_dd
    rw [if_neg]
    · rfl
    · push_neg
      exact ⟨h1, h2, h3⟩
  · unfold dms_to_dd
    rw [if_pos h]
    rfl
  · rw [hpf]
    rfl
  · exact generate_metadata_report_drop _ xs ys bad _ hpf

/-- A latitude triple whose degrees denominator is zero. -/
def zeroDenLat : DmsRat × DmsRat × DmsRat := (⟨40, 0⟩, ⟨0, 1⟩, ⟨0, 1⟩)

/-- A well-formed longitude triple. -/
def okLon : DmsRat × DmsRat × DmsRat := (⟨30, 1⟩, ⟨0, 1⟩, ⟨0, 1⟩)

/-- Per-file inputs for the C10 witness: one file with a zero-denominator
GPS latitude among files without GPS. -/
def c10inputs : String → FileInputs := fun f =>
  if f = "bad.jpg" then ⟨some zeroDenLat, some okLon, "N", "E", blankRecord⟩
  else ⟨none, none, "N", "E", blankRecord⟩

/-- Geocoding stub for the C10 witness. -/
def c10geo : ℚ × ℚ → Except String (Option String) := fun _ => Except.ok none

/-- Claim C10 witness: the zero-denominator file raises, its record is
dropped, and the neighbouring files are still reported. -/
theorem C10_zero_denominator_division_witness :
    (c10inputs "bad.jpg").gpsLat = some zeroDenLat ∧
    zeroDenLat.1.den = 0 ∧
    (reporterProcessFile c10geo (c10inputs "bad.jpg")).isOk = false ∧
    generate_metadata_report (fun f => reporterProcessFile c10geo (c10inputs f))
        (["a.jpg"] ++ "bad.jpg" :: ["c.jpg"]) =
      generate_metadata_report (fun f => reporterProcessFile c10geo (c10inputs f))
        (["a.jpg"] ++ ["c.jpg"]) := by
  have h := C10_zero_denominator_division (⟨1, 1⟩, ⟨0, 1⟩, ⟨0, 1⟩) "N" c10geo c10inputs
    ["a.jpg"] ["c.jpg"] "bad.jpg" zeroDenLat okLon rfl rfl (Or.inl rfl)
  exact ⟨rfl, rfl, h.2.2.1, h.2.2.2⟩

/-- Claim C6 witness: with `photo.png` already present, the loop writes
`photo1.png`; with both present, a second colliding write gets
`photo2.png`. -/
theorem C6_collision_avoidance_witness :
    findFreeName ["photo.png"] "photo" = "photo1.png" ∧
    findFreeName ["photo.png"] "photo" ∉ ["photo.png"] ∧
    findFreeName ("photo1.png" :: ["photo.png"]) "photo" = "photo2.png" :=
  ⟨by decide, (C6_collision_avoidance ["photo.png"] "photo").1, by decide⟩

/-- Claim C8 witness: a record of plain strings (no tuple field) reloads
field-for-field equal. -/
theorem C8_report_roundtrip_witness :
    recordHasTuple blankRecord = false ∧ jsonRoundTripRecord blankRecord = blankRecord :=
  ⟨by decide, (C8_report_roundtrip blankRecord).mpr (by decide)⟩
